import Mathlib

/-!
Shallow embedding of the sbpy tutorial notebooks:
  * an `sbpy.data.Orbit` notebook (three Horizons query cells),
  * an `astroquery.jplspec` notebook (catalog queries and a partition-function
    interpolation cell),
  * a NonLTE production-rate notebook (the `from_pyradex` / Haser loop).

The notebooks' own logic is straight-line glue around calls into external
libraries (sbpy, astroquery, pyradex).  Those libraries are not part of this
repository, so their calls are modelled as abstract parameters (`ExtCalls`);
the notebook code itself — which values it reads, in which order it issues the
calls, what it stores and appends — is translated line by line, and each run
produces a trace of call events so that ordering and counting properties can
be stated.
-/

namespace SbpyNotebooks

/-- A row of the observation table `data/CO.csv` as read by the NonLTE
notebook (`co = Table.read('data/CO.csv', format="ascii.csv")`), with the
columns the notebook prints: `U_T`, `Time`, `T_B`, `Q`, `log(Q)`, `Q_error`.
Numeric columns are modelled as exact rationals. -/
structure CSVRow where
  U_T : String
  Time : String
  T_B : Rat
  Q : Rat
  logQ : Rat
  Q_error : Rat
deriving DecidableEq

/-- Default row used for out-of-range table indexing. -/
def defRow : CSVRow := ⟨"", "", 0, 0, 0, 0⟩

/-- Result of an `Ephem.from_horizons(target, epochs=...)` query, modelled by
its query key: the external service's reply is a function of the target and
the epoch, so any dependence of later computations on the ephemeris is
captured by letting them be arbitrary functions of this key. -/
structure EphemObj where
  target : String
  epoch : String
deriving DecidableEq

/-- `Ephem.from_horizons(target, epochs=time.jd)` from the notebook loop. -/
def Ephem.from_horizons (tgt epoch : String) : EphemObj := ⟨tgt, epoch⟩

/-- The per-run-constant part of the `mol_data` Phys object, assembled before
the production-rate loop: the JPLSpec catalog payload returned by
`Phys.from_jplspec` (abstracted as one rational), the integrated line
intensity stored by `mol_data.apply(..., name='Integrated line intensity at
desired temp')` and the Einstein coefficient stored by
`mol_data.apply(..., name='eincoeff')`. -/
structure PhysConst where
  core : Rat
  intl : Rat
  eincoeff : Rat
deriving DecidableEq

/-- The `mol_data` Phys object threaded through the production-rate loop: the
fixed pre-loop part plus the three columns the notebook overwrites on every
iteration (`mol_data['beta']`, `mol_data['cdensity']`,
`mol_data['total_number']`). -/
structure MolData where
  fixed : PhysConst
  beta : Rat
  cdensity : Rat
  total_number : Rat
deriving DecidableEq

/-- The `sbpy.activity.Haser` model object: `Haser(Q_estimate, vgas, parent)`. -/
structure HaserModel where
  Q : Rat
  v : Rat
  parent : Rat
deriving DecidableEq

/-- One row of a LAMDA catalog transition table, with the two columns the
NonLTE notebook reads (`lam_result['Frequency']`, `lam_found['EinsteinA']`). -/
structure LamdaLine where
  Frequency : Rat
  EinsteinA : Rat
deriving DecidableEq

/-- Call events recorded while running the notebooks.  Constructors carry the
arguments the notebook code passes at the corresponding call site, so that
ordering, multiplicity and dataflow claims can be stated over traces. -/
inductive Event where
  | tableRead (path : String)
  | jplspecQuery (temp t_freq : Rat) (tag : String)
  | lamdaQuery (mol : String)
  | queryLines (min_frequency max_frequency min_strength : Rat) (molecule : String)
  | getSpeciesTable
  | horizonsOrbitQuery (targets : List String)
  | ephemQuery (tgt epoch : String)
  | betaFactorCall
  | betaAssign (v : Rat)
  | bockeleeCall (flux : Rat)
  | cdensityAssign (v : Rat)
  | pyradexCall (flux cdGuess : Rat)
  | totalNumberCall (beta cd : Rat)
  | totalNumberAssign (v : Rat)
  | haserCall (m : HaserModel) (tnum : Rat)
  | appendResult (v : Rat)
deriving DecidableEq

/-- Whether an event is a call to one of the external query interfaces the
spec lists in its External Interfaces section: ephemeris/orbit lookups,
molecular-catalog line-list lookups, the partition-function species table,
the LAMDA catalog lookup and the CSV input table. -/
def Event.isApi : Event → Bool
  | .tableRead _ => true
  | .jplspecQuery _ _ _ => true
  | .lamdaQuery _ => true
  | .queryLines _ _ _ _ => true
  | .getSpeciesTable => true
  | .horizonsOrbitQuery _ => true
  | .ephemQuery _ _ => true
  | _ => false

/-- Is this event the per-epoch ephemeris query? -/
def Event.isEphemQuery : Event → Bool
  | .ephemQuery _ _ => true
  | _ => false

/-- Is this event the `cdensity_Bockelee` first-guess call? -/
def Event.isBockeleeCall : Event → Bool
  | .bockeleeCall _ => true
  | _ => false

/-- Is this event the `from_pyradex` fit call? -/
def Event.isPyradexCall : Event → Bool
  | .pyradexCall _ _ => true
  | _ => false

/-- Is this event the `total_number` scaling call? -/
def Event.isTotalNumberCall : Event → Bool
  | .totalNumberCall _ _ => true
  | _ => false

/-- Is this event the `from_Haser` production-rate evaluation? -/
def Event.isHaserCall : Event → Bool
  | .haserCall _ _ => true
  | _ => false

/-- The value written by a `mol_data['cdensity'] = ...` assignment, if the
event is one. -/
def Event.cdensityAssigned : Event → Option Rat
  | .cdensityAssign v => some v
  | _ => none

/-- The `(beta, cdensity)` pair consumed by a `total_number` call, if the
event is one. -/
def Event.totalNumberArgs : Event → Option (Rat × Rat)
  | .totalNumberCall bta cd => some (bta, cd)
  | _ => none

/-- The Haser model object passed to a `from_Haser` evaluation, if the event
is one. -/
def Event.haserModelArg : Event → Option HaserModel
  | .haserCall m _ => some m
  | _ => none

/-- The `(model, total_number)` pair consumed by a `from_Haser` evaluation,
if the event is one. -/
def Event.haserArgs : Event → Option (HaserModel × Rat)
  | .haserCall m t => some (m, t)
  | _ => none

/-- Modelled from the spec: the external boundary collaborators invoked by
the notebooks (sbpy, astroquery and pyradex functions, none of whose source
is part of this repository).  Per the spec they are black boxes; each field
abstracts one library function by an arbitrary function of the inputs the
spec's flow description says that step consumes (geometry from the ephemeris
query, molecular data, the integrated flux, the column-density estimate, the
total molecule count, the aperture).  `log10` stands for `np.log10`. -/
structure ExtCalls where
  from_jplspec : Rat → Rat → String → Rat
  intensity_conversion : Rat → Rat
  lamda_query : String → List (List LamdaLine)
  photo_timescale : String → Rat
  beta_factor : PhysConst → EphemObj → Rat
  cdensity_Bockelee : Rat → PhysConst → Rat
  from_pyradex : Rat → PhysConst → Rat → Rat
  total_number : PhysConst → Rat → Rat → Rat → Rat → Rat
  from_Haser : HaserModel → PhysConst → Rat → Rat → Rat
  log10 : Rat → Rat

/-- Modelled from the spec: the same external boundary collaborators as
`ExtCalls`, but with each call allowed to fail (raise), as the spec's
error-handling section describes for the underlying libraries.  The error
payload is the raised message. -/
structure ExtCallsE where
  ephem_query : String → String → Except String EphemObj
  beta_factor : PhysConst → EphemObj → Except String Rat
  cdensity_Bockelee : Rat → PhysConst → Except String Rat
  from_pyradex : Rat → PhysConst → Rat → Except String Rat
  total_number : PhysConst → Rat → Rat → Rat → Rat → Except String Rat
  from_Haser : HaserModel → PhysConst → Rat → Rat → Except String Rat
  log10 : Rat → Rat

namespace NonLTENotebook

/-- `transition_freq = (230.538 * u.GHz).to('MHz')`, i.e. 230538 MHz. -/
def transition_freq : Rat := 230538

/-- `aper = 10 * u.m`. -/
def aper : Rat := 10

/-- `mol_tag = '^CO$'`. -/
def mol_tag : String := "^CO$"

/-- `temp_estimate = 25. * u.K`. -/
def temp_estimate : Rat := 25

/-- `vgas = 0.5 * u.km / u.s`. -/
def vgas : Rat := 0.5

/-- `target = 'C/2016 R2'`. -/
def target : String := "C/2016 R2"

/-- `b = 0.74`, the intrinsic antenna value. -/
def b : Rat := 0.74

/-- `mol_name = 'CO'`, the LAMDA molecule name. -/
def mol_name : String := "CO"

/-- The contents of `data/CO.csv` as recorded in the notebook's printed
output (the file itself is not in the repository; the five rows and the
`U_T`/`Time`/`T_B`/`Q`/`log(Q)` values are transcribed from the executed
cell's output).  The stored `Q_error` column is never read before the
notebook overwrites it, so it is modelled as 0 here. -/
def co_read : List CSVRow :=
  [⟨"2017-12-22.21", "2017-12-22 05:02:24", 0.26, 4.4e28, 28.64345268, 0⟩,
   ⟨"2017-12-23.09", "2017-12-23 02:09:36", 0.28, 4.6e28, 28.66275783, 0⟩,
   ⟨"2017-12-30.14", "2017-12-30 03:21:36", 0.26, 4.6e28, 28.66275783, 0⟩,
   ⟨"2017-12-31.13", "2017-12-31 03:07:12", 0.27, 4.6e28, 28.66275783, 0⟩,
   ⟨"2018-01-16.03", "2018-01-16 00:43:12", 0.27, 4.6e28, 28.66275783, 0⟩]

/-- `error = np.array([0.2, 0.4, 0.4, 0.4, 0.4]) * 10.**28`, the literature
error bars. -/
def error : List Rat := [0.2e28, 0.4e28, 0.4e28, 0.4e28, 0.4e28]

/-- The `Q_error` update cell:
`Q_error = np.log10(np.array(co['Q']) + np.array(error)) - np.array(co['log(Q)'])`
followed by `co['Q_error'] = Q_error`, applied to an arbitrary table. -/
def co_update (ext : ExtCalls) (tbl : List CSVRow) : List CSVRow :=
  List.zipWith (fun r e => { r with Q_error := ext.log10 (r.Q + e) - r.logQ }) tbl error

/-- The observation table `co` after the `Q_error` update cell. -/
def co (ext : ExtCalls) : List CSVRow := co_update ext co_read

/-- The rows visited by `for i in range(0, 5)`: the loop reads
`co['Time'][i]` and `co['T_B'][i]` for `i = 0 .. 4`. -/
def rowsOf (tbl : List CSVRow) : List CSVRow :=
  (List.range 5).map (fun i => tbl.getD i defRow)

/-- `mol_data = Phys.from_jplspec(temp_estimate, transition_freq, mol_tag)`:
the JPLSpec catalog payload. -/
def mol_core (ext : ExtCalls) : Rat :=
  ext.from_jplspec temp_estimate transition_freq mol_tag

/-- `intl = intensity_conversion(mol_data)`, stored into `mol_data`. -/
def intl (ext : ExtCalls) : Rat := ext.intensity_conversion (mol_core ext)

/-- `lam_search = Lamda.query(mol=mol_name.lower())`. -/
def lam_search (ext : ExtCalls) : List (List LamdaLine) :=
  ext.lamda_query mol_name.toLower

/-- `lam_result = lam_search[1]`, the CO transition table. -/
def lam_result (ext : ExtCalls) : List LamdaLine := (lam_search ext).getD 1 []

/-- `lam_found = lam_result[lam_result['Frequency'] == transition_freq.to('GHz').value]`. -/
def lam_found (ext : ExtCalls) : List LamdaLine :=
  (lam_result ext).filter (fun r => r.Frequency == transition_freq / 1000)

/-- `au = lam_found['EinsteinA'].data[0] / u.s`, the Einstein coefficient
appended to `mol_data` as `eincoeff`. -/
def au (ext : ExtCalls) : Rat := ((lam_found ext).headD ⟨0, 0⟩).EinsteinA

/-- The fixed part of `mol_data` once the pre-loop cells have run. -/
def mol_fixed (ext : ExtCalls) : PhysConst := ⟨mol_core ext, intl ext, au ext⟩

/-- `Q_estimate = 3.594*10**(28) / u.s`, the first-guess production rate. -/
def Q_estimate : Rat := 3.594 * 10 ^ (28 : Nat)

/-- `parent = photo_timescale('CO') * vgas`, the parent photodissociation
scale length. -/
def parent (ext : ExtCalls) : Rat := ext.photo_timescale "CO" * vgas

/-- `coma = Haser(Q_estimate, vgas, parent)`, built once before the loop. -/
def coma (ext : ExtCalls) : HaserModel := ⟨Q_estimate, vgas, parent ext⟩

/-- The `mol_data` object entering the loop.  The notebook requires the
`beta`, `cdensity` and `total_number` columns to be initialized before the
loop but does not show the initial values, so they are parameters here. -/
def md0 (ext : ExtCalls) (b0 c0 t0 : Rat) : MolData := ⟨mol_fixed ext, b0, c0, t0⟩

/-- One iteration of the production-rate loop, translated line by line from
the loop body of the notebook:

```
time = Time(co['Time'][i], format='iso')
integrated_flux = co['T_B'][i] * u.K * u.km / u.s
ephemobj = Ephem.from_horizons(target, epochs=time.jd)
beta = beta_factor(mol_data, ephemobj)
mol_data['beta'] = beta
cdensity_bockelee = lte.cdensity_Bockelee(integrated_flux, mol_data)
mol_data['cdensity'] = cdensity_bockelee
cdensity = nonlte.from_pyradex(integrated_flux, mol_data)
mol_data['cdensity'] = cdensity
tnum = total_number(mol_data, aper, b)
mol_data['total_number'] = tnum
Q = from_Haser(coma, mol_data, aper=aper)
q_found_pyradex.append(np.log10(Q.value)[0])
```

Returns the updated `mol_data`, the value appended to the results list, and
the trace of call and assignment events in program order. -/
def loopBody (ext : ExtCalls) (cm : HaserModel) (apr bb : Rat) (tgt : String)
    (row : CSVRow) (md : MolData) : MolData × Rat × List Event :=
  let time := row.Time
  let integrated_flux := row.T_B
  let ephemobj := Ephem.from_horizons tgt time
  let beta := ext.beta_factor md.fixed ephemobj
  let md1 := { md with beta := beta }
  let cdensity_bockelee := ext.cdensity_Bockelee integrated_flux md1.fixed
  let md2 := { md1 with cdensity := cdensity_bockelee }
  let cdensity := ext.from_pyradex integrated_flux md2.fixed md2.cdensity
  let md3 := { md2 with cdensity := cdensity }
  let tnum := ext.total_number md3.fixed md3.beta md3.cdensity apr bb
  let md4 := { md3 with total_number := tnum }
  let Q := ext.from_Haser cm md4.fixed md4.total_number apr
  (md4, ext.log10 Q,
    [Event.ephemQuery tgt time, Event.betaFactorCall, Event.betaAssign beta,
     Event.bockeleeCall integrated_flux, Event.cdensityAssign cdensity_bockelee,
     Event.pyradexCall integrated_flux md2.cdensity, Event.cdensityAssign cdensity,
     Event.totalNumberCall md3.beta md3.cdensity, Event.totalNumberAssign tnum,
     Event.haserCall cm md4.total_number, Event.appendResult (ext.log10 Q)])

/-- The production-rate loop: runs `loopBody` on each row in order, threading
the `mol_data` state and collecting the appended results and the
per-iteration traces. -/
def runRows (ext : ExtCalls) (cm : HaserModel) (apr bb : Rat) (tgt : String) :
    MolData → List CSVRow → MolData × List Rat × List (List Event)
  | md, [] => (md, [], [])
  | md, row :: rest =>
      let s := loopBody ext cm apr bb tgt row md
      let r := runRows ext cm apr bb tgt s.1 rest
      (r.1, s.2.1 :: r.2.1, s.2.2 :: r.2.2)

/-- The whole production-rate computation applied to an arbitrary raw table:
`Q_error` update, then the five-iteration loop; returns the `q_found_pyradex`
results list. -/
def q_found_on (ext : ExtCalls) (tbl : List CSVRow) (b0 c0 t0 : Rat) : List Rat :=
  (runRows ext (coma ext) aper b target (md0 ext b0 c0 t0)
    (rowsOf (co_update ext tbl))).2.1

/-- `q_found_pyradex` after the loop cell of the notebook. -/
def q_found_pyradex (ext : ExtCalls) (b0 c0 t0 : Rat) : List Rat :=
  q_found_on ext co_read b0 c0 t0

/-- The per-iteration event traces of the notebook's loop. -/
def loopTraces (ext : ExtCalls) (b0 c0 t0 : Rat) : List (List Event) :=
  (runRows ext (coma ext) aper b target (md0 ext b0 c0 t0)
    (rowsOf (co ext))).2.2

/-- The flat event trace of the notebook's loop (iterations concatenated). -/
def flatLoopTrace (ext : ExtCalls) (b0 c0 t0 : Rat) : List Event :=
  (loopTraces ext b0 c0 t0).flatten

/-- Index in `flatLoopTrace` at which iteration `i` of the loop begins. -/
def iterOffset (ext : ExtCalls) (b0 c0 t0 : Rat) (i : Nat) : Nat :=
  (((loopTraces ext b0 c0 t0).take i).map List.length).sum

/-- The geometry fetched for one epoch, as the spec words the flow: the
ephemeris query for the epoch, fed to the beta factor. -/
def betaOf (ext : ExtCalls) (fx : PhysConst) (tgt : String) (row : CSVRow) : Rat :=
  ext.beta_factor fx (Ephem.from_horizons tgt row.Time)

/-- The Bockelee LTE first-guess column density for one epoch. -/
def cdbOf (ext : ExtCalls) (fx : PhysConst) (row : CSVRow) : Rat :=
  ext.cdensity_Bockelee row.T_B fx

/-- The pyradex best-fit column density for one epoch (seeded by the
Bockelee first guess). -/
def cdOf (ext : ExtCalls) (fx : PhysConst) (row : CSVRow) : Rat :=
  ext.from_pyradex row.T_B fx (cdbOf ext fx row)

/-- The total molecule count in the aperture for one epoch, computed from the
pyradex column density. -/
def tnumOf (ext : ExtCalls) (fx : PhysConst) (tgt : String) (apr bb : Rat)
    (row : CSVRow) : Rat :=
  ext.total_number fx (betaOf ext fx tgt row) (cdOf ext fx row) apr bb

/-- The value appended for one epoch, written as the spec's flow reads: fetch
geometry, derive molecular data, obtain a column-density estimate, convert it
to a total molecule count for the aperture, evaluate a production rate with
the Haser model (then `np.log10`). -/
def specEpochRate (ext : ExtCalls) (cm : HaserModel) (fx : PhysConst) (tgt : String)
    (apr bb : Rat) (row : CSVRow) : Rat :=
  ext.log10 (ext.from_Haser cm fx (tnumOf ext fx tgt apr bb row) apr)

/-- The per-epoch call sequence as the spec words it, in order: ephemeris
query for the epoch, beta factor, Bockelee column-density first guess,
pyradex fit, total-number scaling, Haser evaluation, append. -/
def specEpochTrace (ext : ExtCalls) (cm : HaserModel) (fx : PhysConst) (tgt : String)
    (apr bb : Rat) (row : CSVRow) : List Event :=
  [Event.ephemQuery tgt row.Time,
   Event.betaFactorCall,
   Event.betaAssign (betaOf ext fx tgt row),
   Event.bockeleeCall row.T_B,
   Event.cdensityAssign (cdbOf ext fx row),
   Event.pyradexCall row.T_B (cdbOf ext fx row),
   Event.cdensityAssign (cdOf ext fx row),
   Event.totalNumberCall (betaOf ext fx tgt row) (cdOf ext fx row),
   Event.totalNumberAssign (tnumOf ext fx tgt apr bb row),
   Event.haserCall cm (tnumOf ext fx tgt apr bb row),
   Event.appendResult (specEpochRate ext cm fx tgt apr bb row)]

/-- The API-relevant event trace of the whole NonLTE notebook in cell order:
the CSV read, the JPLSpec query, the LAMDA query, then the loop's events. -/
def notebookTrace (ext : ExtCalls) (b0 c0 t0 : Rat) : List Event :=
  [Event.tableRead "data/CO.csv",
   Event.jplspecQuery temp_estimate transition_freq mol_tag,
   Event.lamdaQuery mol_name.toLower]
  ++ flatLoopTrace ext b0 c0 t0

/-- One iteration of the loop in the fallible model: the same call sequence
as `loopBody`, with each external call allowed to raise; an error aborts the
body at the raising call and is returned as-is (the notebook wraps nothing in
`try`/`except`). -/
def loopBodyE (ext : ExtCallsE) (cm : HaserModel) (apr bb : Rat) (tgt : String)
    (row : CSVRow) (md : MolData) : Except String (MolData × Rat) :=
  match ext.ephem_query tgt row.Time with
  | .error e => .error e
  | .ok ephemobj =>
    match ext.beta_factor md.fixed ephemobj with
    | .error e => .error e
    | .ok beta =>
      let md1 := { md with beta := beta }
      match ext.cdensity_Bockelee row.T_B md1.fixed with
      | .error e => .error e
      | .ok cdensity_bockelee =>
        let md2 := { md1 with cdensity := cdensity_bockelee }
        match ext.from_pyradex row.T_B md2.fixed md2.cdensity with
        | .error e => .error e
        | .ok cdensity =>
          let md3 := { md2 with cdensity := cdensity }
          match ext.total_number md3.fixed md3.beta md3.cdensity apr bb with
          | .error e => .error e
          | .ok tnum =>
            let md4 := { md3 with total_number := tnum }
            match ext.from_Haser cm md4.fixed md4.total_number apr with
            | .error e => .error e
            | .ok Q => .ok (md4, ext.log10 Q)

/-- The production-rate loop in the fallible model: iterations run in order;
the first raised error stops the loop, and the results list keeps exactly the
values appended by the completed iterations. -/
def runRowsE (ext : ExtCallsE) (cm : HaserModel) (apr bb : Rat) (tgt : String) :
    MolData → List CSVRow → List Rat × Option String
  | _, [] => ([], none)
  | md, row :: rest =>
      match loopBodyE ext cm apr bb tgt row md with
      | .error e => ([], some e)
      | .ok s =>
          let r := runRowsE ext cm apr bb tgt s.1 rest
          (s.2 :: r.1, r.2)

/-- The outcome of one epoch of the fallible pipeline as a function of the
fixed molecular data only: either the appended value or the first error
raised by its calls. -/
def epochOutcome (ext : ExtCallsE) (cm : HaserModel) (apr bb : Rat) (tgt : String)
    (fx : PhysConst) (row : CSVRow) : Except String Rat :=
  match ext.ephem_query tgt row.Time with
  | .error e => .error e
  | .ok ephemobj =>
    match ext.beta_factor fx ephemobj with
    | .error e => .error e
    | .ok beta =>
      match ext.cdensity_Bockelee row.T_B fx with
      | .error e => .error e
      | .ok cdensity_bockelee =>
        match ext.from_pyradex row.T_B fx cdensity_bockelee with
        | .error e => .error e
        | .ok cdensity =>
          match ext.total_number fx beta cdensity apr bb with
          | .error e => .error e
          | .ok tnum =>
            match ext.from_Haser cm fx tnum apr with
            | .error e => .error e
            | .ok Q => .ok (ext.log10 Q)

/-- Number of iterations completed before the first failing one (all of them
if every iteration succeeds). -/
def failCnt (ext : ExtCallsE) (cm : HaserModel) (apr bb : Rat) (tgt : String)
    (fx : PhysConst) : List CSVRow → Nat
  | [] => 0
  | row :: rest =>
      match epochOutcome ext cm apr bb tgt fx row with
      | .error _ => 0
      | .ok _ => failCnt ext cm apr bb tgt fx rest + 1

/-- The error raised by the first failing iteration, if any. -/
def firstErr (ext : ExtCallsE) (cm : HaserModel) (apr bb : Rat) (tgt : String)
    (fx : PhysConst) : List CSVRow → Option String
  | [] => none
  | row :: rest =>
      match epochOutcome ext cm apr bb tgt fx row with
      | .error e => some e
      | .ok _ => firstErr ext cm apr bb tgt fx rest

/-- The value a successful iteration appends (junk value on a failing row;
only used at rows before the first failure). -/
def okRateE (ext : ExtCallsE) (cm : HaserModel) (apr bb : Rat) (tgt : String)
    (fx : PhysConst) (row : CSVRow) : Rat :=
  match epochOutcome ext cm apr bb tgt fx row with
  | .ok q => q
  | .error _ => 0

end NonLTENotebook

namespace OrbitNotebook

/-- The external query calls of the Orbit notebook, in cell order:
`Orbit.from_horizons(['3552', '259P'])`, then `Orbit.from_horizons('Ceres')`
in the `oo_transform` cell, then `Orbit.from_horizons('Ceres')` in the
`oo_propagate` cell (the OpenOrb transformations themselves are local
computations, not queries). -/
def trace : List Event :=
  [Event.horizonsOrbitQuery ["3552", "259P"],
   Event.horizonsOrbitQuery ["Ceres"],
   Event.horizonsOrbitQuery ["Ceres"]]

end OrbitNotebook

namespace JPLSpecNotebook

/-- The external query calls of the JPLSpec notebook, in cell order: four
`JPLSpec.query_lines` calls (frequency bounds in GHz, catalog strength
cutoff, molecule identifier), `JPLSpec.get_species_table()`, and two
`Phys.from_jplspec(47 K, 345700 MHz, ...)` calls (tag `28001`, then regex
`'^CO$'`). -/
def trace : List Event :=
  [Event.queryLines 100 1000 (-500) "28001 CO",
   Event.queryLines 100 1000 (-500) "CO$",
   Event.queryLines 100 500 (-500) "^H.O$",
   Event.queryLines 100 700 (-500) "^H[2D]O(-\\d\\d|)$",
   Event.getSpeciesTable,
   Event.jplspecQuery 47 345700 "28001",
   Event.jplspecQuery 47 345700 "^CO$"]

/-- `f(T, a) = np.log10(a * T**1.5)`, the model function of the
partition-function interpolation cell, over the reals. -/
noncomputable def f (T a : ℝ) : ℝ := Real.logb 10 (a * T ^ (1.5 : ℝ))

/-- `part160 = 10**(f(160., param[0]))`: the partition function reported at
160 K for the fitted parameter. -/
noncomputable def part160 (a : ℝ) : ℝ := (10 : ℝ) ^ f 160 a

end JPLSpecNotebook

/-- The concatenated external-call trace of all the material's notebooks. -/
def materialTrace (ext : ExtCalls) (b0 c0 t0 : Rat) : List Event :=
  OrbitNotebook.trace ++ JPLSpecNotebook.trace
    ++ NonLTENotebook.notebookTrace ext b0 c0 t0

/-- A concrete instantiation of the external libraries (constant-valued, so
closed instances of the embedding evaluate by kernel reduction), used by the
witness theorems. -/
def sampleExt : ExtCalls where
  from_jplspec := fun _ _ _ => 3
  intensity_conversion := fun _ => 5
  lamda_query := fun _ => [[], [⟨231, 7⟩]]
  photo_timescale := fun _ => 2
  beta_factor := fun _ _ => 11
  cdensity_Bockelee := fun _ _ => 13
  from_pyradex := fun _ _ _ => 17
  total_number := fun _ _ _ _ _ => 19
  from_Haser := fun _ _ _ _ => 23
  log10 := fun q => q

/-- A variant of the observation table that agrees with `co_read` on the
`Time` and `T_B` columns but differs in the `Q`, `log(Q)` and `Q_error`
columns; input for the noninterference witness. -/
def csvAlt : List SbpyNotebooks.CSVRow :=
  [⟨"2017-12-22.21", "2017-12-22 05:02:24", 0.26, 1, 2, 3⟩,
   ⟨"2017-12-23.09", "2017-12-23 02:09:36", 0.28, 4, 5, 6⟩,
   ⟨"2017-12-30.14", "2017-12-30 03:21:36", 0.26, 7, 8, 9⟩,
   ⟨"2017-12-31.13", "2017-12-31 03:07:12", 0.27, 10, 11, 12⟩,
   ⟨"2018-01-16.03", "2018-01-16 00:43:12", 0.27, 13, 14, 15⟩]

end SbpyNotebooks

namespace SbpyNotebooks

open NonLTENotebook

/-- The results list produced by the loop is the per-epoch pipeline mapped
over the visited rows: each iteration's appended value is a function of that
iteration's row and the fixed pre-loop data only. -/
theorem runRows_results (ext : ExtCalls) (cm : HaserModel) (apr bb : Rat) (tgt : String) :
    ∀ (rows : List CSVRow) (md : MolData),
      (runRows ext cm apr bb tgt md rows).2.1
        = rows.map (specEpochRate ext cm md.fixed tgt apr bb) := by
  intro rows
  induction rows with
  | nil => intro md; rfl
  | cons row rest ih =>
      intro md
      calc (runRows ext cm apr bb tgt md (row :: rest)).2.1
          = (loopBody ext cm apr bb tgt row md).2.1
              :: (runRows ext cm apr bb tgt (loopBody ext cm apr bb tgt row md).1 rest).2.1 := rfl
        _ = specEpochRate ext cm md.fixed tgt apr bb row
              :: rest.map (specEpochRate ext cm md.fixed tgt apr bb) := by
              rw [ih]; rfl
        _ = (row :: rest).map (specEpochRate ext cm md.fixed tgt apr bb) := rfl

/-- Projections through the default row commute with `getD` on tables whose
projected columns agree. -/
theorem map_proj_getD {α : Type} (g : CSVRow → α) :
    ∀ (l1 l2 : List CSVRow) (i : Nat), l1.map g = l2.map g →
      g (l1.getD i defRow) = g (l2.getD i defRow) := by
  intro l1
  induction l1 with
  | nil =>
      intro l2 i h
      cases l2 with
      | nil => rfl
      | cons r t => simp at h
  | cons r1 t1 ih =>
      intro l2 i h
      cases l2 with
      | nil => simp at h
      | cons r2 t2 =>
          simp only [List.map_cons, List.cons.injEq] at h
          cases i with
          | zero => simpa [List.getD] using h.1
          | succ n => simpa [List.getD] using ih t2 n h.2

/-- A `zipWith` update that leaves a column unchanged preserves agreement of
that column between two tables. -/
theorem zipWith_update_map_proj {α : Type} (g : CSVRow → α) (upd : CSVRow → Rat → CSVRow)
    (hg : ∀ r e, g (upd r e) = g r) :
    ∀ (l1 l2 : List CSVRow) (err : List Rat), l1.map g = l2.map g →
      (List.zipWith upd l1 err).map g = (List.zipWith upd l2 err).map g := by
  intro l1
  induction l1 with
  | nil =>
      intro l2 err h
      cases l2 with
      | nil => rfl
      | cons r t => simp at h
  | cons r1 t1 ih =>
      intro l2 err h
      cases l2 with
      | nil => simp at h
      | cons r2 t2 =>
          simp only [List.map_cons, List.cons.injEq] at h
          cases err with
          | nil => rfl
          | cons e err2 =>
              simp only [List.zipWith_cons_cons, List.map_cons, hg, h.1,
                ih t2 err2 h.2]

/-- The per-epoch pipeline value reads only the `Time` and `T_B` fields of
its row. -/
theorem specEpochRate_congr (ext : ExtCalls) (cm : HaserModel) (fx : PhysConst)
    (tgt : String) (apr bb : Rat) {r1 r2 : CSVRow}
    (hT : r1.Time = r2.Time) (hB : r1.T_B = r2.T_B) :
    specEpochRate ext cm fx tgt apr bb r1 = specEpochRate ext cm fx tgt apr bb r2 := by
  simp [specEpochRate, tnumOf, betaOf, cdOf, cdbOf, Ephem.from_horizons, hT, hB]

/-- Claim C1: for every processed observation epoch, the production-rate
loop performs, in this order: fetch geometry (ephemeris query for the
epoch), derive molecular data (beta factor and column-density estimate),
convert the column density to a total molecule count for the aperture, and
evaluate a production rate with the Haser model; each iteration appends its
result, so the list holds one value per processed epoch in the input order
of the CSV rows. -/
theorem C1_per_epoch_pipeline (ext : ExtCalls) (b0 c0 t0 : Rat) :
    loopTraces ext b0 c0 t0
      = (rowsOf (co ext)).map
          (specEpochTrace ext (coma ext) (mol_fixed ext) target aper b)
    ∧ q_found_pyradex ext b0 c0 t0
      = (rowsOf (co ext)).map
          (specEpochRate ext (coma ext) (mol_fixed ext) target aper b) :=
  ⟨rfl, rfl⟩

/-- Claim C2: the production-rate loop is a counted loop executing its body
exactly five times (rows 0 through 4 of the CSV table), and within each
iteration the ephemeris query, the Bockelee first guess, the pyradex fit,
the total-number scaling and the Haser evaluation are each issued exactly
once, with no retry on any call. -/
theorem C2_five_iterations_each_call_once (ext : ExtCalls) (b0 c0 t0 : Rat) :
    (loopTraces ext b0 c0 t0).length = 5
    ∧ (q_found_pyradex ext b0 c0 t0).length = 5
    ∧ (loopTraces ext b0 c0 t0).map (fun t => t.countP Event.isEphemQuery)
        = List.replicate 5 1
    ∧ (loopTraces ext b0 c0 t0).map (fun t => t.countP Event.isBockeleeCall)
        = List.replicate 5 1
    ∧ (loopTraces ext b0 c0 t0).map (fun t => t.countP Event.isPyradexCall)
        = List.replicate 5 1
    ∧ (loopTraces ext b0 c0 t0).map (fun t => t.countP Event.isTotalNumberCall)
        = List.replicate 5 1
    ∧ (loopTraces ext b0 c0 t0).map (fun t => t.countP Event.isHaserCall)
        = List.replicate 5 1 :=
  ⟨rfl, rfl, rfl, rfl, rfl, rfl, rfl⟩

end SbpyNotebooks

namespace SbpyNotebooks

open NonLTENotebook

/-- Claim C3, counterexample: a value produced during one loop iteration is
carried into the next.  With the concrete external instance `sampleExt` and
the loop started with all mutable columns initialized to 0, the `mol_data`
state that the first iteration hands to the rest of the loop (the `.1`
component of `runRows` on the one-row prefix) holds the column density the
first iteration's pyradex call produced (17), not its pre-loop value (0):
the column density is not consumed immediately and discarded, it persists in
`mol_data` into the next iteration. -/
theorem C3_counterexample_value_carried :
    (md0 sampleExt 0 0 0).cdensity = 0
    ∧ (runRows sampleExt (coma sampleExt) aper b target (md0 sampleExt 0 0 0)
        [co_read.getD 0 defRow]).1.cdensity
      = cdOf sampleExt (mol_fixed sampleExt) (co_read.getD 0 defRow)
    ∧ cdOf sampleExt (mol_fixed sampleExt) (co_read.getD 0 defRow) ≠ 0 := by
  refine ⟨rfl, rfl, ?_⟩
  show (17 : Rat) ≠ 0
  norm_num

/-- Claim C3 as amended: although the `mol_data` object (with its fixed
catalog payload) and the accumulating results list do persist across
iterations, the carried `beta`/`cdensity`/`total_number` values are dead:
every iteration overwrites them before any read that reaches a result, so
the list of production rates is independent of the initial column values and
equals a stateless per-epoch map over the observation rows. -/
theorem C3_amended_results_stateless (ext : ExtCalls) (b0 c0 t0 b0' c0' t0' : Rat) :
    q_found_pyradex ext b0 c0 t0 = q_found_pyradex ext b0' c0' t0'
    ∧ q_found_pyradex ext b0 c0 t0
      = (rowsOf (co ext)).map
          (specEpochRate ext (coma ext) (mol_fixed ext) target aper b) :=
  ⟨rfl, rfl⟩

/-- Claim C5: the production-rate loop consumes only the `Time` and `T_B`
columns of the CSV table: two tables agreeing on those columns (with the
model parameters and initial columns fixed) yield the same list of
production rates, regardless of the `Q`, `log(Q)` and `Q_error` columns. -/
theorem C5_only_time_tb_consumed (ext : ExtCalls) (t1 t2 : List CSVRow) (b0 c0 t0 : Rat)
    (hT : t1.map CSVRow.Time = t2.map CSVRow.Time)
    (hB : t1.map CSVRow.T_B = t2.map CSVRow.T_B) :
    q_found_on ext t1 b0 c0 t0 = q_found_on ext t2 b0 c0 t0 := by
  have hT2 := zipWith_update_map_proj CSVRow.Time
    (fun r e => { r with Q_error := ext.log10 (r.Q + e) - r.logQ })
    (fun r e => rfl) t1 t2 error hT
  have hB2 := zipWith_update_map_proj CSVRow.T_B
    (fun r e => { r with Q_error := ext.log10 (r.Q + e) - r.logQ })
    (fun r e => rfl) t1 t2 error hB
  have key : ∀ i : Nat,
      specEpochRate ext (coma ext) (mol_fixed ext) target aper b
          ((co_update ext t1).getD i defRow)
        = specEpochRate ext (coma ext) (mol_fixed ext) target aper b
          ((co_update ext t2).getD i defRow) := by
    intro i
    exact specEpochRate_congr ext (coma ext) (mol_fixed ext) target aper b
      (map_proj_getD CSVRow.Time _ _ i hT2) (map_proj_getD CSVRow.T_B _ _ i hB2)
  show (rowsOf (co_update ext t1)).map
      (specEpochRate ext (coma ext) (mol_fixed ext) target aper b)
    = (rowsOf (co_update ext t2)).map
      (specEpochRate ext (coma ext) (mol_fixed ext) target aper b)
  unfold rowsOf
  rw [List.map_map, List.map_map]
  exact List.map_congr_left (fun i _ => key i)

/-- Witness for C5: the recorded table and a table that differs in the `Q`,
`log(Q)` and `Q_error` columns but agrees on `Time` and `T_B` produce the
same results list. -/
theorem C5_witness :
    co_read.map CSVRow.Time = csvAlt.map CSVRow.Time
    ∧ co_read.map CSVRow.T_B = csvAlt.map CSVRow.T_B
    ∧ q_found_on sampleExt co_read 0 0 0 = q_found_on sampleExt csvAlt 0 0 0 :=
  ⟨rfl, rfl, C5_only_time_tb_consumed sampleExt co_read csvAlt 0 0 0 rfl rfl⟩

/-- Claim C6: the entire visible logic of the material performs fewer than
20 calls into the external query interfaces (ephemeris/orbit lookups,
line-list lookups, the species table, the LAMDA lookup and the CSV input):
across the three notebooks the trace holds exactly 18 such calls. -/
theorem C6_fewer_than_20_api_calls (ext : ExtCalls) (b0 c0 t0 : Rat) :
    (materialTrace ext b0 c0 t0).countP Event.isApi < 20 := by
  have h : (materialTrace ext b0 c0 t0).countP Event.isApi = 18 := rfl
  omega

/-- Claim C7: operations execute strictly in sequence: in the flat trace of
the loop, iteration `i` occupies a contiguous block, that block is exactly
iteration `i`'s events in program order, and the block of iteration `i + 1`
begins exactly where the block of iteration `i` ends — no event of a later
iteration occurs before every event of an earlier one, and no two blocks
overlap. -/
theorem C7_strict_sequencing (ext : ExtCalls) (b0 c0 t0 : Rat) (i : Nat) (hi : i < 5) :
    ((flatLoopTrace ext b0 c0 t0).drop (iterOffset ext b0 c0 t0 i)).take
        ((loopTraces ext b0 c0 t0).getD i []).length
      = (loopTraces ext b0 c0 t0).getD i []
    ∧ iterOffset ext b0 c0 t0 (i + 1)
      = iterOffset ext b0 c0 t0 i + ((loopTraces ext b0 c0 t0).getD i []).length := by
  interval_cases i <;> exact ⟨rfl, rfl⟩

/-- Witness for C7, at iteration 2 of the concrete instance. -/
theorem C7_witness :
    2 < 5
    ∧ (((flatLoopTrace sampleExt 0 0 0).drop (iterOffset sampleExt 0 0 0 2)).take
          ((loopTraces sampleExt 0 0 0).getD 2 []).length
        = (loopTraces sampleExt 0 0 0).getD 2 []
      ∧ iterOffset sampleExt 0 0 0 (2 + 1)
        = iterOffset sampleExt 0 0 0 2 + ((loopTraces sampleExt 0 0 0).getD 2 []).length) :=
  ⟨by norm_num, C7_strict_sequencing sampleExt 0 0 0 2 (by norm_num)⟩

/-- Claim C8: in every iteration the `cdensity` column is assigned exactly
twice — first the Bockelee LTE first guess, then the pyradex best fit — and
the `total_number` call and the Haser evaluation of that iteration consume
the pyradex value (the first guess reaches them only as the seed of the
pyradex fit). -/
theorem C8_cdensity_assigned_twice_pyradex_read (ext : ExtCalls) (b0 c0 t0 : Rat) :
    (loopTraces ext b0 c0 t0).map (fun t => t.filterMap Event.cdensityAssigned)
      = (rowsOf (co ext)).map
          (fun row => [cdbOf ext (mol_fixed ext) row, cdOf ext (mol_fixed ext) row])
    ∧ (loopTraces ext b0 c0 t0).map (fun t => t.filterMap Event.totalNumberArgs)
      = (rowsOf (co ext)).map
          (fun row => [(betaOf ext (mol_fixed ext) target row, cdOf ext (mol_fixed ext) row)])
    ∧ (loopTraces ext b0 c0 t0).map (fun t => t.filterMap Event.haserArgs)
      = (rowsOf (co ext)).map
          (fun row => [(coma ext, tnumOf ext (mol_fixed ext) target aper b row)]) :=
  ⟨rfl, rfl, rfl⟩

/-- Claim C9: the Haser coma model is built exactly once, before the loop,
from the fixed production-rate estimate 3.594e28, the fixed gas velocity and
the fixed parent scale length, and every one of the five Haser evaluations
receives that same pre-loop model object. -/
theorem C9_haser_model_prebuilt_and_shared (ext : ExtCalls) (b0 c0 t0 : Rat) :
    coma ext = ⟨Q_estimate, vgas, parent ext⟩
    ∧ Q_estimate = 3.594e28
    ∧ (flatLoopTrace ext b0 c0 t0).filterMap Event.haserModelArg
      = List.replicate 5 (coma ext) := by
  refine ⟨rfl, ?_, rfl⟩
  norm_num [Q_estimate]

end SbpyNotebooks

namespace SbpyNotebooks

open NonLTENotebook

/-- Claim C4: no call of the production-rate loop is wrapped in any
error-handling or recovery construct.  In the fallible model, the loop's
outcome is fully characterized: the results list holds exactly the values
appended by the iterations completed before the first failing one (all of
them when nothing fails, i.e. `failCnt rows = rows.length`), and the error
surfacing from the loop is precisely the error raised by the first failing
call, unchanged. -/
theorem C4_errors_propagate_unchanged (ext : ExtCallsE) (cm : HaserModel)
    (apr bb : Rat) (tgt : String) :
    ∀ (rows : List CSVRow) (md : MolData),
      runRowsE ext cm apr bb tgt md rows
        = ((rows.take (failCnt ext cm apr bb tgt md.fixed rows)).map
              (okRateE ext cm apr bb tgt md.fixed),
           firstErr ext cm apr bb tgt md.fixed rows) := by
  intro rows
  induction rows with
  | nil => intro md; rfl
  | cons row rest ih =>
      intro md
      cases h1 : ext.ephem_query tgt row.Time with
      | error e =>
          simp [runRowsE, loopBodyE, epochOutcome, failCnt, firstErr, h1]
      | ok eph =>
        cases h2 : ext.beta_factor md.fixed eph with
        | error e =>
            simp [runRowsE, loopBodyE, epochOutcome, failCnt, firstErr, h1, h2]
        | ok beta =>
          cases h3 : ext.cdensity_Bockelee row.T_B md.fixed with
          | error e =>
              simp [runRowsE, loopBodyE, epochOutcome, failCnt, firstErr, h1, h2, h3]
          | ok cdb =>
            cases h4 : ext.from_pyradex row.T_B md.fixed cdb with
            | error e =>
                simp [runRowsE, loopBodyE, epochOutcome, failCnt, firstErr,
                  h1, h2, h3, h4]
            | ok cd =>
              cases h5 : ext.total_number md.fixed beta cd apr bb with
              | error e =>
                  simp [runRowsE, loopBodyE, epochOutcome, failCnt, firstErr,
                    h1, h2, h3, h4, h5]
              | ok tnum =>
                cases h6 : ext.from_Haser cm md.fixed tnum apr with
                | error e =>
                    simp [runRowsE, loopBodyE, epochOutcome, failCnt, firstErr,
                      h1, h2, h3, h4, h5, h6]
                | ok Q =>
                    simp [runRowsE, loopBodyE, epochOutcome, failCnt, firstErr,
                      okRateE, h1, h2, h3, h4, h5, h6, ih]

end SbpyNotebooks

namespace SbpyNotebooks

/-- Claim C10: in the partition-function interpolation cell, the value
reported at 160 K equals `a * 160**1.5` exactly for the fitted parameter
`a` (which `curve_fit`'s bounds constrain to be at least 0.00001): applying
`10**(.)` to `f(T, a) = log10(a * T**1.5)` cancels the base-10 logarithm.
The cell's float arithmetic is modelled over the reals. -/
theorem C10_part160_roundtrip (a : ℝ) (ha : (0.00001 : ℝ) ≤ a) :
    JPLSpecNotebook.part160 a = a * (160 : ℝ) ^ (1.5 : ℝ) := by
  have ha0 : (0 : ℝ) < a := lt_of_lt_of_le (by norm_num) ha
  have hx : (0 : ℝ) < a * (160 : ℝ) ^ (1.5 : ℝ) :=
    mul_pos ha0 (Real.rpow_pos_of_pos (by norm_num) _)
  simpa [JPLSpecNotebook.part160, JPLSpecNotebook.f, mul_comm] using
    Real.rpow_logb (by norm_num) (by norm_num) hx

/-- Witness for C10, at the fitted parameter value 1. -/
theorem C10_witness :
    (0.00001 : ℝ) ≤ 1
    ∧ JPLSpecNotebook.part160 1 = 1 * (160 : ℝ) ^ (1.5 : ℝ) :=
  ⟨by norm_num, C10_part160_roundtrip 1 (by norm_num)⟩

end SbpyNotebooks
